import Mathlib

/-
  Verification development for the DelphiCAPEX financial calculation and
  scenario-diff core.

  Shallow embedding conventions:
  - Python floats are modelled as rationals (ℚ); the algebraic identities the
    code relies on are exact over ℚ.
  - Python code that can raise (float division by zero, float() parsing,
    str.rindex) is modelled with Option/Except; a `none`/`.error` result marks
    an uncaught exception on that path.
  - Python dicts keyed by id are modelled as association lists where an
    assignment to an existing key replaces the stored value in place
    (Python dicts keep the original insertion position on overwrite).
  - String enum values (AIUBaseRule, PercentageBase, PricingMode) are plain
    strings compared literally, exactly as the Python `str`-enum comparisons do.
-/

set_option maxHeartbeats 1000000

namespace budget_model

/-- Per-item monetary totals, the dict returned by calculate_item_totals
(keys base_unit, vat_unit, total_unit, base_line, vat_line, total_line). -/
structure ItemTotals where
  base_unit : ℚ
  vat_unit : ℚ
  total_unit : ℚ
  base_line : ℚ
  vat_line : ℚ
  total_line : ℚ
deriving DecidableEq

/-- Item of budget_model.py: one budget line entry. The uuid default of
item_id is modelled as an explicit string chosen by the caller. -/
structure Item where
  item_id : String
  item_code : Option String
  category_id : String
  name : String
  description : String
  unit : String
  qty : ℚ
  unit_price : ℚ
  price_includes_vat : Bool
  vat_rate : ℚ
  aiu_applicable : Bool
  client_provided : Bool
  pass_through : Bool
  notes : String
  is_percentage_item : Bool
  pct_rate : ℚ
  pct_base : String
  order : Int
  delivery_point : String
  incoterm : String
  includes_transport_to_site : Bool
  includes_installation : Bool
  includes_commissioning : Bool
deriving DecidableEq

/-- Category of budget_model.py. -/
structure Category where
  category_id : String
  label : String
  is_equipment : Bool
deriving DecidableEq

/-- Scenario of budget_model.py (the original flat model generation). -/
structure Scenario where
  scenario_id : String
  name : String
  currency_input : String
  prices_include_vat : Bool
  default_vat_rate : ℚ
  aiu_enabled : Bool
  aiu_admin_pct : ℚ
  aiu_imprevistos_pct : ℚ
  aiu_utility_pct : ℚ
  aiu_base_rule : String
  transport_pct : ℚ
  policies_pct : ℚ
  engineering_pct : ℚ
  pct_base_rule : String
  potencia_total_kwac : ℚ
  energia_p50_mwh_anio : ℚ
  pnom_total_kwp : ℚ
  produccion_especifica_kwh_kwp_anio : ℚ
  categories : List Category
  items : List Item
deriving DecidableEq

/-- calculate_item_totals of budget_model.py.  Returns `none` exactly where the
Python code raises ZeroDivisionError: tax-inclusive pricing with an effective
VAT rate of -100 makes the divisor 1 + rate/100 zero.  The
`hasattr(item, 'price_includes_vat')` test in the source is always true for
the dataclass, so the item field is used directly. -/
def calculate_item_totals (item : Item) (scen : Scenario) : Option ItemTotals :=
  if item.is_percentage_item then
    some ⟨0, 0, 0, 0, 0, 0⟩
  else
    let vat_rate := if item.vat_rate > 0 then item.vat_rate else scen.default_vat_rate
    let unit_price := item.unit_price
    let qty := item.qty
    if item.price_includes_vat then
      if 1 + vat_rate / 100 = 0 then
        none
      else
        let base_unit := unit_price / (1 + vat_rate / 100)
        let vat_unit := unit_price - base_unit
        let total_unit := unit_price
        some ⟨base_unit, vat_unit, total_unit,
              base_unit * qty, vat_unit * qty, total_unit * qty⟩
    else
      let base_unit := unit_price
      let vat_unit := base_unit * (vat_rate / 100)
      let total_unit := base_unit + vat_unit
      some ⟨base_unit, vat_unit, total_unit,
            base_unit * qty, vat_unit * qty, total_unit * qty⟩

/-- The dict {base_line, vat_line, total_line} returned by
calculate_percentage_module_value. -/
structure LineTotals where
  base_line : ℚ
  vat_line : ℚ
  total_line : ℚ
deriving DecidableEq

/-- calculate_percentage_module_value of budget_model.py (transport, policies
and engineering indirect modules).  VAT is always added on top. -/
def calculate_percentage_module_value (pct_rate base_value vat_rate : ℚ) : LineTotals :=
  if pct_rate = 0 then ⟨0, 0, 0⟩
  else
    let percentage_value := base_value * (pct_rate / 100)
    let base_line := percentage_value
    let vat_line := base_line * (vat_rate / 100)
    ⟨base_line, vat_line, base_line + vat_line⟩

/-- First-match association-list lookup, modelling a Python dict access for a
dict whose keys are unique. -/
def lookupId (k : String) : List (String × ItemTotals) → Option ItemTotals
  | [] => none
  | (k2, v) :: rest => if k2 = k then some v else lookupId k rest

/-- Dict assignment d[k] = v: replace in place if the key exists, else append. -/
def upsertTotals (k : String) (v : ItemTotals) :
    List (String × ItemTotals) → List (String × ItemTotals)
  | [] => [(k, v)]
  | (k2, v2) :: rest =>
    if k2 = k then (k2, v) :: rest else (k2, v2) :: upsertTotals k v rest

/-- The per-item inclusion decision of calculate_aiu_base_from_total_with_vat:
which items count toward the markup (AIU) base under the configured rule.
The Python code compares the rule both with the str-enum member and with the
literal string; both carry the same characters, so a single literal comparison
is the faithful translation. -/
def includeItem (scen : Scenario) (item : Item) : Bool :=
  let rule := scen.aiu_base_rule
  if rule = "Costo directo (sin IVA)" then
    item.aiu_applicable && !item.client_provided && !item.pass_through
  else if rule = "Costo directo (sin IVA) excluyendo ítems \x27Cliente compra\x27" then
    !item.client_provided && !item.pass_through
  else if rule = "Solo servicios y mano de obra (excluye categorías de equipos)" then
    item.aiu_applicable && !item.client_provided && !item.pass_through &&
      !(scen.categories.any fun c => c.is_equipment && decide (c.category_id = item.category_id))
  else
    item.aiu_applicable && !item.client_provided && !item.pass_through

/-- The loop of calculate_aiu_base_from_total_with_vat: accumulates
(included_direct_cost_total, total_direct_cost_total) over the non-percentage
items found in the items_totals dict. -/
def aiuSums (scen : Scenario) (items_totals : List (String × ItemTotals)) :
    List Item → ℚ × ℚ
  | [] => (0, 0)
  | item :: rest =>
    if item.is_percentage_item then aiuSums scen items_totals rest
    else
      match lookupId item.item_id items_totals with
      | none => aiuSums scen items_totals rest
      | some t =>
        let r := aiuSums scen items_totals rest
        (if includeItem scen item then r.1 + t.total_line else r.1,
         r.2 + t.total_line)

/-- calculate_aiu_base_from_total_with_vat of budget_model.py: proportional
markup-base resolution over the combined tax-inclusive total. -/
def calculate_aiu_base_from_total_with_vat (scen : Scenario) (total_direct : ℚ)
    (items_totals : List (String × ItemTotals)) : ℚ :=
  if !scen.aiu_enabled then 0
  else if total_direct = 0 then 0
  else
    let s := aiuSums scen items_totals scen.items
    let inclusion_factor := if s.2 > 0 then s.1 / s.2 else 1
    total_direct * inclusion_factor

/-- Accumulator of the per-item loop of calculate_scenario_summary. -/
structure SummaryAcc where
  items_totals : List (String × ItemTotals)
  direct_cost_base : ℚ
  direct_cost_vat : ℚ
  direct_cost_total : ℚ
  epc_base : ℚ
  epc_vat : ℚ
  epc_total : ℚ
  client_capex_base : ℚ
  client_capex_vat : ℚ
  client_capex_total : ℚ

/-- One step of the per-item loop of calculate_scenario_summary. -/
def stepAcc (acc : SummaryAcc) (item : Item) (t : ItemTotals) : SummaryAcc where
  items_totals := upsertTotals item.item_id t acc.items_totals
  direct_cost_base := acc.direct_cost_base + t.base_line
  direct_cost_vat := acc.direct_cost_vat + t.vat_line
  direct_cost_total := acc.direct_cost_total + t.total_line
  epc_base := if !item.client_provided then acc.epc_base + t.base_line else acc.epc_base
  epc_vat := if !item.client_provided then acc.epc_vat + t.vat_line else acc.epc_vat
  epc_total := if !item.client_provided then acc.epc_total + t.total_line else acc.epc_total
  client_capex_base :=
    if item.client_provided then acc.client_capex_base + t.base_line else acc.client_capex_base
  client_capex_vat :=
    if item.client_provided then acc.client_capex_vat + t.vat_line else acc.client_capex_vat
  client_capex_total :=
    if item.client_provided then acc.client_capex_total + t.total_line else acc.client_capex_total

/-- The per-item loop of calculate_scenario_summary: percentage items are
skipped, every other item is priced with calculate_item_totals; a `none`
result (ZeroDivisionError in the source) aborts the whole computation. -/
def summarizeItems (scen : Scenario) : List Item → SummaryAcc → Option SummaryAcc
  | [], acc => some acc
  | item :: rest, acc =>
    if item.is_percentage_item then summarizeItems scen rest acc
    else
      match calculate_item_totals item scen with
      | none => none
      | some t => summarizeItems scen rest (stepAcc acc item t)

/-- The dict returned by calculate_scenario_summary. -/
structure Summary where
  direct_cost_base : ℚ
  direct_cost_vat : ℚ
  direct_cost_total : ℚ
  total_base : ℚ
  total_vat : ℚ
  total_direct : ℚ
  transport_base : ℚ
  transport_vat : ℚ
  transport_total : ℚ
  policies_base : ℚ
  policies_vat : ℚ
  policies_total : ℚ
  engineering_base : ℚ
  engineering_vat : ℚ
  engineering_total : ℚ
  aiu_base : ℚ
  aiu_admin : ℚ
  aiu_imprevistos : ℚ
  aiu_utility : ℚ
  aiu_total : ℚ
  grand_total : ℚ
  epc_base : ℚ
  epc_vat : ℚ
  epc_total : ℚ
  client_capex_base : ℚ
  client_capex_vat : ℚ
  client_capex_total : ℚ
  items_totals : List (String × ItemTotals)

/-- calculate_scenario_summary of budget_model.py.  `none` marks the
ZeroDivisionError path of the per-item calculator. -/
def calculate_scenario_summary (scen : Scenario) : Option Summary :=
  match summarizeItems scen scen.items ⟨[], 0, 0, 0, 0, 0, 0, 0, 0, 0⟩ with
  | none => none
  | some acc =>
    let pct_base_value :=
      if scen.pct_base_rule = "Subtotal base (sin IVA)" then acc.direct_cost_base
      else if scen.pct_base_rule = "Subtotal total (con IVA)" then acc.direct_cost_total
      else if scen.pct_base_rule = "Base AIU" then acc.direct_cost_base
      else acc.direct_cost_base
    let transport_totals :=
      calculate_percentage_module_value scen.transport_pct pct_base_value scen.default_vat_rate
    let policies_totals :=
      calculate_percentage_module_value scen.policies_pct pct_base_value scen.default_vat_rate
    let engineering_totals :=
      calculate_percentage_module_value scen.engineering_pct pct_base_value scen.default_vat_rate
    let total_base := acc.direct_cost_base + transport_totals.base_line +
      policies_totals.base_line + engineering_totals.base_line
    let total_vat := acc.direct_cost_vat + transport_totals.vat_line +
      policies_totals.vat_line + engineering_totals.vat_line
    let total_direct := acc.direct_cost_total + transport_totals.total_line +
      policies_totals.total_line + engineering_totals.total_line
    let aiu_base := calculate_aiu_base_from_total_with_vat scen total_direct acc.items_totals
    let aiu_admin :=
      if scen.aiu_enabled && aiu_base > 0 then aiu_base * (scen.aiu_admin_pct / 100) else 0
    let aiu_imprevistos :=
      if scen.aiu_enabled && aiu_base > 0 then aiu_base * (scen.aiu_imprevistos_pct / 100) else 0
    let aiu_utility :=
      if scen.aiu_enabled && aiu_base > 0 then aiu_base * (scen.aiu_utility_pct / 100) else 0
    let aiu_total := aiu_admin + aiu_imprevistos + aiu_utility
    let epc_base := acc.epc_base + transport_totals.base_line +
      policies_totals.base_line + engineering_totals.base_line
    let epc_vat := acc.epc_vat + transport_totals.vat_line +
      policies_totals.vat_line + engineering_totals.vat_line
    let epc_total := acc.epc_total + transport_totals.total_line +
      policies_totals.total_line + engineering_totals.total_line + aiu_total
    let grand_total := total_direct + aiu_total
    some
      { direct_cost_base := acc.direct_cost_base
        direct_cost_vat := acc.direct_cost_vat
        direct_cost_total := acc.direct_cost_total
        total_base := total_base
        total_vat := total_vat
        total_direct := total_direct
        transport_base := transport_totals.base_line
        transport_vat := transport_totals.vat_line
        transport_total := transport_totals.total_line
        policies_base := policies_totals.base_line
        policies_vat := policies_totals.vat_line
        policies_total := policies_totals.total_line
        engineering_base := engineering_totals.base_line
        engineering_vat := engineering_totals.vat_line
        engineering_total := engineering_totals.total_line
        aiu_base := aiu_base
        aiu_admin := aiu_admin
        aiu_imprevistos := aiu_imprevistos
        aiu_utility := aiu_utility
        aiu_total := aiu_total
        grand_total := grand_total
        epc_base := epc_base
        epc_vat := epc_vat
        epc_total := epc_total
        client_capex_base := acc.client_capex_base
        client_capex_vat := acc.client_capex_vat
        client_capex_total := acc.client_capex_total
        items_totals := acc.items_totals }

end budget_model

namespace ai_analyst

open budget_model (Item)

/-- Python truthiness of the optional item_code field: `if item.item_code:`
is false for None and for the empty string. -/
def codeTruthy : Option String → Bool
  | none => false
  | some s => decide (s ≠ "")

/-- normalize_name of ai_analyst.py: lowercase, split on whitespace runs,
rejoin with single spaces (str.split() drops empty fragments, which also
performs the strip). -/
def normalize_name (name : String) : String :=
  " ".intercalate (((name.toLower).split Char.isWhitespace).filter (fun w => w ≠ ""))

/-- The inner loop of pass 1 of match_items_by_code_and_name: the first item
of B that is not yet used and carries the same non-empty code as `a`. -/
def findCodeMatch (a : Item) (used : List String) : List Item → Option Item
  | [] => none
  | b :: bs =>
    if b.item_id ∈ used then findCodeMatch a used bs
    else if codeTruthy b.item_code = true ∧ a.item_code = b.item_code then some b
    else findCodeMatch a used bs

/-- Pass 1 of match_items_by_code_and_name: items of A with a truthy code are
paired by exact code equality (or recorded as (a, none)); items of A without
a truthy code produce no entry at all. -/
def pass1 (items_b : List Item) : List Item → List String →
    List (Item × Option Item) × List String
  | [], used => ([], used)
  | a :: rest, used =>
    if codeTruthy a.item_code then
      match findCodeMatch a used items_b with
      | some b =>
        let r := pass1 items_b rest (b.item_id :: used)
        ((a, some b) :: r.1, r.2)
      | none =>
        let r := pass1 items_b rest used
        ((a, none) :: r.1, r.2)
    else pass1 items_b rest used

/-- The matches-update loop of pass 2: replace the first entry equal to
(a, none) by (a, some b); the boolean reports whether an entry was found. -/
def updateFirst (a b : Item) : List (Item × Option Item) →
    List (Item × Option Item) × Bool
  | [] => ([], false)
  | (ia, ib) :: rest =>
    if ia = a ∧ ib = none then ((a, some b) :: rest, true)
    else
      let r := updateFirst a b rest
      ((ia, ib) :: r.1, r.2)

/-- The name comparison of pass 2: same category, equal non-empty normalized
names. -/
def nameMatches (a b : Item) : Prop :=
  a.category_id = b.category_id ∧ normalize_name a.name = normalize_name b.name ∧
    normalize_name a.name ≠ ""

instance (a b : Item) : Decidable (nameMatches a b) := by
  unfold nameMatches; infer_instance

/-- The inner loop of pass 2 of match_items_by_code_and_name for one item of
A: scan the pre-computed unmatched items of B, re-checking used_b. -/
def pass2Scan (a : Item) (ms : List (Item × Option Item)) (used : List String) :
    List Item → List (Item × Option Item) × List String
  | [] => (ms, used)
  | b :: bs =>
    if b.item_id ∈ used then pass2Scan a ms used bs
    else if nameMatches a b then
      let r := updateFirst a b ms
      if r.2 then (r.1, b.item_id :: used)
      else pass2Scan a ms used bs
    else pass2Scan a ms used bs

/-- Pass 2 of match_items_by_code_and_name: each still-unmatched item of A
(collected from the pass-1 matches) tries a category+name match. -/
def pass2 (unmatched_b : List Item) : List Item →
    List (Item × Option Item) → List String →
    List (Item × Option Item) × List String
  | [], ms, used => (ms, used)
  | a :: rest, ms, used =>
    let r := pass2Scan a ms used unmatched_b
    pass2 unmatched_b rest r.1 r.2

/-- match_items_by_code_and_name of ai_analyst.py: code pass, then
category+normalized-name pass, then the leftover items of B. -/
def match_items_by_code_and_name (items_a items_b : List Item) :
    List (Option Item × Option Item) :=
  let p1 := pass1 items_b items_a []
  let unmatched_a := (p1.1.filter fun p => p.2 = none).map fun p => p.1
  let unmatched_b := items_b.filter fun b => b.item_id ∉ p1.2
  let p2 := pass2 unmatched_b unmatched_a p1.1 p1.2
  (p2.1.map fun p => ((some p.1 : Option Item), p.2)) ++
    ((items_b.filter fun b => b.item_id ∉ p2.2).map fun b => ((none : Option Item), some b))

/-- calc_delta_pct, the helper closed over by generate_diff_pack of
ai_analyst.py. -/
def calc_delta_pct (a b : ℚ) : ℚ :=
  if a = 0 then (if b = 0 then 0 else 100) else ((b - a) / a) * 100

/-- One entry of the aggregate_by_category result consumed by
group_categories_by_name: {'name', 'base', 'vat', 'total'}. -/
structure CatEntry where
  name : String
  base : ℚ
  vat : ℚ
  total : ℚ
deriving DecidableEq

/-- One value of the group_categories_by_name result:
{'base', 'vat', 'total'}. -/
structure CatSums where
  base : ℚ
  vat : ℚ
  total : ℚ
deriving DecidableEq

/-- One loop iteration of group_categories_by_name: initialize the row for
this label with zeroes when absent, then add the three components (the
initialization plus += collapses to the sum shown here). -/
def addCat : List (String × CatSums) → String → CatSums → List (String × CatSums)
  | [], n, t => [(n, t)]
  | (k, v) :: rest, n, t =>
    if k = n then (k, ⟨v.base + t.base, v.vat + t.vat, v.total + t.total⟩) :: rest
    else (k, v) :: addCat rest n t

/-- group_categories_by_name of ai_analyst.py: merge category aggregates that
share the same label, summing base/vat/total.  The input keys (category ids)
are ignored; the `totals.get` calls always find their keys for entries built
by aggregate_by_category, so the fields are read directly. -/
def group_categories_by_name (cat_totals : List (String × CatEntry)) :
    List (String × CatSums) :=
  cat_totals.foldl
    (fun acc p => addCat acc p.2.name ⟨p.2.base, p.2.vat, p.2.total⟩) []

end ai_analyst

namespace models

/-- AIUFactors of models.py: per-item markup scaling factors. -/
structure AIUFactors where
  admin_factor : ℚ
  imprev_factor : ℚ
  util_factor : ℚ
deriving DecidableEq

/-- ScenarioItem of models.py (the newer model generation). -/
structure ScenarioItem where
  item_id : String
  item_code : String
  name : String
  category_code : String
  description : String
  qty : ℚ
  unit : String
  pricing_mode : String
  price : ℚ
  vat_rate : ℚ
  price_includes_vat : Bool
  client_pays : Bool
  aiu_factors : AIUFactors
  incoterm : String
  includes_installation : Bool
  includes_transport : Bool
  includes_commissioning : Bool
  delivery_point : String
  notes : String
  order : Int
deriving DecidableEq

/-- ScenarioVariables of models.py. -/
structure ScenarioVariables where
  p50_mwh_per_year : ℚ
  p90_mwh_per_year : ℚ
  ac_power_mw : ℚ
  dc_power_mwp : ℚ
  currency : String
  fx_rate : ℚ
deriving DecidableEq

/-- AIUConfig of models.py. -/
structure AIUConfig where
  enabled : Bool
  admin_pct : ℚ
  imprev_pct : ℚ
  util_pct : ℚ
deriving DecidableEq

/-- VATConfig of models.py. -/
structure VATConfig where
  vat_recoverable : Bool
  vat_on_utilidad_enabled : Bool
  vat_rate_utilidad : ℚ
deriving DecidableEq

/-- Scenario of models.py (the newer Client→Project→Scenario generation).
The source field `variables` is renamed scenario_variables because
`variables` is a reserved word in Lean. -/
structure Scenario where
  scenario_id : String
  project_id : String
  name : String
  created_at : String
  updated_at : String
  scenario_variables : ScenarioVariables
  aiu_config : AIUConfig
  vat_config : VATConfig
  items : List ScenarioItem
deriving DecidableEq

end models

namespace capex_engine

open models

/-- The dict {'base', 'vat', 'total'} returned by calculate_item_total of
capex_engine.py. -/
structure ItemTotal where
  base : ℚ
  vat : ℚ
  total : ℚ
deriving DecidableEq

/-- calculate_item_total of capex_engine.py.  The division by
1 + vat_rate/100 only happens under the vat_rate > 0 guard, so the function
is total. -/
def calculate_item_total (item : ScenarioItem) (scenario_kwp : ℚ) : ItemTotal :=
  let total := if item.pricing_mode = "PER_KWP" then scenario_kwp * item.price
               else item.qty * item.price
  if item.price_includes_vat then
    if item.vat_rate > 0 then
      let base_total := total / (1 + item.vat_rate / 100)
      ⟨base_total, total - base_total, total⟩
    else
      ⟨total, 0, total⟩
  else
    let base_total := total
    let vat_total := base_total * (item.vat_rate / 100)
    ⟨base_total, vat_total, base_total + vat_total⟩

/-- First-match association-list lookup for the item_totals dict of
capex_engine.py. -/
def lookupTotal (k : String) : List (String × ItemTotal) → Option ItemTotal
  | [] => none
  | (k2, v) :: rest => if k2 = k then some v else lookupTotal k rest

/-- Dict assignment item_totals[k] = v (replace in place, else append). -/
def upsertTotal (k : String) (v : ItemTotal) :
    List (String × ItemTotal) → List (String × ItemTotal)
  | [] => [(k, v)]
  | (k2, v2) :: rest =>
    if k2 = k then (k2, v) :: rest else (k2, v2) :: upsertTotal k v rest

/-- The item_totals dict built by the first loop of calculate_scenario_totals. -/
def buildItemTotals (scenario_kwp : ℚ) (items : List ScenarioItem) :
    List (String × ItemTotal) :=
  items.foldl (fun d item => upsertTotal item.item_id (calculate_item_total item scenario_kwp) d) []

/-- item_totals[item.item_id] lookup; the key is always present because every
item was inserted, so the fallback row is unreachable. -/
def totalOf (d : List (String × ItemTotal)) (item : ScenarioItem) : ItemTotal :=
  (lookupTotal item.item_id d).getD ⟨0, 0, 0⟩

/-- The dict returned by calculate_scenario_totals of capex_engine.py. -/
structure ScenarioTotals where
  item_totals : List (String × ItemTotal)
  direct_epc_base : ℚ
  direct_epc_vat : ℚ
  direct_epc_total : ℚ
  client_base : ℚ
  client_vat : ℚ
  client_total : ℚ
  aiu_base_a : ℚ
  aiu_base_i : ℚ
  aiu_base_u : ℚ
  aiu_admin : ℚ
  aiu_imprev : ℚ
  aiu_util : ℚ
  aiu_total : ℚ
  vat_on_utilidad : ℚ
  epc_base : ℚ
  epc_vat : ℚ
  epc_total : ℚ
  project_base : ℚ
  project_vat : ℚ
  project_total : ℚ

/-- calculate_scenario_totals of capex_engine.py. -/
def calculate_scenario_totals (scen : models.Scenario) : ScenarioTotals :=
  let scenario_kwp := scen.scenario_variables.dc_power_mwp * 1000
  let item_totals := buildItemTotals scenario_kwp scen.items
  let epc_items := scen.items.filter fun item => !item.client_pays
  let client_items := scen.items.filter fun item => item.client_pays
  let direct_epc_base := (epc_items.map fun item => (totalOf item_totals item).base).sum
  let direct_epc_vat := (epc_items.map fun item => (totalOf item_totals item).vat).sum
  let direct_epc_total := (epc_items.map fun item => (totalOf item_totals item).total).sum
  let client_base := (client_items.map fun item => (totalOf item_totals item).base).sum
  let client_vat := (client_items.map fun item => (totalOf item_totals item).vat).sum
  let client_total := (client_items.map fun item => (totalOf item_totals item).total).sum
  let aiu_admin := if scen.aiu_config.enabled
    then direct_epc_total * (scen.aiu_config.admin_pct / 100) else 0
  let aiu_imprev := if scen.aiu_config.enabled
    then direct_epc_total * (scen.aiu_config.imprev_pct / 100) else 0
  let aiu_util := if scen.aiu_config.enabled
    then direct_epc_total * (scen.aiu_config.util_pct / 100) else 0
  let aiu_total := aiu_admin + aiu_imprev + aiu_util
  let base_a := if scen.aiu_config.enabled then direct_epc_total else 0
  let base_i := if scen.aiu_config.enabled then direct_epc_total else 0
  let base_u := if scen.aiu_config.enabled then direct_epc_total else 0
  let vat_on_utilidad := if scen.vat_config.vat_on_utilidad_enabled
    then aiu_util * (scen.vat_config.vat_rate_utilidad / 100) else 0
  let epc_base := direct_epc_base + aiu_total
  let epc_vat := direct_epc_vat + vat_on_utilidad
  let epc_total := epc_base + epc_vat
  let project_base := epc_base + client_base
  let project_vat := epc_vat + client_vat
  let project_total := project_base + project_vat
  { item_totals := item_totals
    direct_epc_base := direct_epc_base
    direct_epc_vat := direct_epc_vat
    direct_epc_total := direct_epc_total
    client_base := client_base
    client_vat := client_vat
    client_total := client_total
    aiu_base_a := base_a
    aiu_base_i := base_i
    aiu_base_u := base_u
    aiu_admin := aiu_admin
    aiu_imprev := aiu_imprev
    aiu_util := aiu_util
    aiu_total := aiu_total
    vat_on_utilidad := vat_on_utilidad
    epc_base := epc_base
    epc_vat := epc_vat
    epc_total := epc_total
    project_base := project_base
    project_vat := project_vat
    project_total := project_total }

end capex_engine

namespace formatting

/-- Python exception kinds relevant to parse_number: the except clause of the
source catches ValueError and AttributeError; any other kind would escape. -/
inductive PyErr where
  | valueError
  | attributeError
  | otherError
deriving DecidableEq

/-- str.strip(): drop whitespace from both ends. -/
def pyStrip (cs : List Char) : List Char :=
  ((cs.dropWhile Char.isWhitespace).reverse.dropWhile Char.isWhitespace).reverse

/-- str.replace(c, "") for a one-character pattern: remove every occurrence. -/
def removeChar (c : Char) (cs : List Char) : List Char :=
  cs.filter fun x => x ≠ c

/-- str.replace(c, r) for one-character pattern and replacement. -/
def swapChar (c r : Char) (cs : List Char) : List Char :=
  cs.map fun x => if x = c then r else x

/-- str.rindex(c): index of the last occurrence; raises ValueError when the
character is absent. -/
def pyRindex (c : Char) (cs : List Char) : Except PyErr Nat :=
  match (cs.enum.filter fun p => p.2 = c).getLast? with
  | some p => .ok p.1
  | none => .error .valueError

/-- str.split(c) for a one-character separator: keeps empty fragments,
exactly like Python str.split with an explicit separator. -/
def pySplit (c : Char) : List Char → List (List Char)
  | [] => [[]]
  | x :: rest =>
    match pySplit c rest with
    | [] => [[]]
    | g :: gs => if x = c then [] :: g :: gs else (x :: g) :: gs

/-- Numeric value of a list of decimal digit characters. -/
def digitsToNat (ds : List Char) : ℕ :=
  ds.foldl (fun n c => 10 * n + (c.toNat - 48)) 0

/-- Split a float literal at the first exponent marker e/E, if any. -/
def splitExp (cs : List Char) : List Char × Option (List Char) :=
  match cs.findIdx? (fun c => c == 'e' || c == 'E') with
  | none => (cs, none)
  | some i => (cs.take i, some (cs.drop (i + 1)))

/-- Split a mantissa at its decimal point; a second point makes the literal
invalid. -/
def splitDot (cs : List Char) : Option (List Char × List Char) :=
  match cs.findIdx? (fun c => c == '.') with
  | none => some (cs, [])
  | some i =>
    let frac := cs.drop (i + 1)
    if frac.contains '.' then none else some (cs.take i, frac)

/-- Optional leading sign of a float literal. -/
def parseSign : List Char → ℚ × List Char
  | '-' :: rest => (-1, rest)
  | '+' :: rest => (1, rest)
  | cs => (1, cs)

/-- Value of the mantissa part digits[.digits], requiring at least one digit. -/
def mantissaVal (cs : List Char) : Option ℚ :=
  match splitDot cs with
  | none => none
  | some (ip, fp) =>
    if ip.all Char.isDigit ∧ fp.all Char.isDigit ∧ (ip ≠ [] ∨ fp ≠ []) then
      some ((digitsToNat ip : ℚ) + (digitsToNat fp : ℚ) / (10 : ℚ) ^ fp.length)
    else none

/-- Value of the exponent part [sign]digits. -/
def expVal (cs : List Char) : Option Int :=
  let s : Int × List Char :=
    match cs with
    | '-' :: rest => (-1, rest)
    | '+' :: rest => (1, rest)
    | rest => (1, rest)
  if s.2 ≠ [] ∧ s.2.all Char.isDigit then some (s.1 * digitsToNat s.2) else none

/-- Multiply by the power of ten named by the exponent. -/
def applyExp (q : ℚ) (e : Int) : ℚ :=
  if 0 ≤ e then q * (10 : ℚ) ^ e.toNat else q / (10 : ℚ) ^ (-e).toNat

/-- Python float(text), restricted to finite decimal literals
[sign](digits[.digits] | .digits)[(e|E)[sign]digits]: surrounding whitespace
is ignored; anything else raises ValueError.  The inf/infinity/nan spellings
and underscore digit separators lie outside the rational model and are
treated as unparsable; no claim depends on them. -/
def floatOfChars (cs : List Char) : Except PyErr ℚ :=
  let s1 := parseSign (pyStrip cs)
  match splitExp s1.2 with
  | (mant, none) =>
    match mantissaVal mant with
    | some q => .ok (s1.1 * q)
    | none => .error .valueError
  | (mant, some ep) =>
    match mantissaVal mant, expVal ep with
    | some q, some e => .ok (applyExp (s1.1 * q) e)
    | _, _ => .error .valueError

/-- The thousands/decimal separator normalization block of parse_number:
both separators present → the later one is the decimal mark; a single
separator with exactly one group of at most two trailing digits is a decimal
mark, otherwise a thousands separator. -/
def transformSeparators (text : List Char) : Except PyErr (List Char) :=
  if text.contains ',' && text.contains '.' then
    match pyRindex ',' text with
    | .error e => .error e
    | .ok ri =>
      match pyRindex '.' text with
      | .error e => .error e
      | .ok rd =>
        if ri > rd then .ok (swapChar ',' '.' (removeChar '.' text))
        else .ok (removeChar ',' text)
  else if text.contains ',' then
    match pySplit ',' text with
    | [_, p1] =>
      if p1.length ≤ 2 then .ok (swapChar ',' '.' text) else .ok (removeChar ',' text)
    | _ => .ok (removeChar ',' text)
  else if text.contains '.' then
    match pySplit '.' text with
    | [_, p1] => if p1.length ≤ 2 then .ok text else .ok (removeChar '.' text)
    | _ => .ok (removeChar '.' text)
  else .ok text

/-- The try-block body of parse_number: strip, early return on empty,
separator normalization, float conversion.  An `.error` value models an
exception propagating out of the block. -/
def parseBody (s : String) : Except PyErr ℚ :=
  let text := pyStrip s.toList
  if text = [] then .ok 0
  else
    match transformSeparators text with
    | .error e => .error e
    | .ok t2 => floatOfChars t2

/-- parse_number of formatting.py.  The input is None or a string; the
except clause turns ValueError and AttributeError into 0.0 while any other
exception kind would escape as `.error`. -/
def parse_number (t : Option String) : Except PyErr ℚ :=
  match t with
  | none => .ok 0
  | some s =>
    if s = "" then .ok 0
    else
      match parseBody s with
      | .ok q => .ok q
      | .error .valueError => .ok 0
      | .error .attributeError => .ok 0
      | .error e => .error e

end formatting

/-
  Concrete instances used by the witness and counterexample theorems below.
-/

namespace budget_model

/-- Item with the dataclass defaults of budget_model.py (the uuid default of
item_id is modelled as the empty string). -/
def defaultItem : Item :=
  { item_id := ""
    item_code := none
    category_id := ""
    name := ""
    description := ""
    unit := "UND"
    qty := 0
    unit_price := 0
    price_includes_vat := false
    vat_rate := 19
    aiu_applicable := true
    client_provided := false
    pass_through := false
    notes := ""
    is_percentage_item := false
    pct_rate := 0
    pct_base := "Subtotal base (sin IVA)"
    order := 0
    delivery_point := "Puesto en obra"
    incoterm := "NA"
    includes_transport_to_site := false
    includes_installation := false
    includes_commissioning := false }

/-- Scenario with the dataclass defaults of budget_model.py. -/
def defaultScenario : Scenario :=
  { scenario_id := ""
    name := ""
    currency_input := "COP"
    prices_include_vat := false
    default_vat_rate := 19
    aiu_enabled := false
    aiu_admin_pct := 0
    aiu_imprevistos_pct := 0
    aiu_utility_pct := 0
    aiu_base_rule := "Costo directo (sin IVA)"
    transport_pct := 0
    policies_pct := 0
    engineering_pct := 0
    pct_base_rule := "Subtotal base (sin IVA)"
    potencia_total_kwac := 0
    energia_p50_mwh_anio := 0
    pnom_total_kwp := 0
    produccion_especifica_kwh_kwp_anio := 0
    categories := []
    items := [] }

/-- C2 counterexample data: an item that falls back to the scenario default
VAT rate of -100 while its price is tax-inclusive. -/
def c2Item : Item :=
  { defaultItem with item_id := "c2i", unit_price := 1, vat_rate := 0,
                     price_includes_vat := true }

/-- C2 counterexample scenario. -/
def c2Scen : Scenario :=
  { defaultScenario with default_vat_rate := -100, items := [c2Item] }

/-- C2 witness scenario: an ordinary scenario with one priced item. -/
def c2wScen : Scenario :=
  { defaultScenario with
      items := [{ defaultItem with item_id := "w2", unit_price := 100, qty := 3 }] }

/-- C3 counterexample item: excluded from the markup base (not
markup-eligible) and carrying a zero line total. -/
def c3Item : Item :=
  { defaultItem with item_id := "c3i", aiu_applicable := false }

/-- C3 counterexample scenario: markup enabled, only the excluded item. -/
def c3Scen : Scenario :=
  { defaultScenario with aiu_enabled := true, items := [c3Item] }

/-- C3 counterexample items_totals dict: the excluded item has zero totals. -/
def c3Totals : List (String × ItemTotals) := [("c3i", ⟨0, 0, 0, 0, 0, 0⟩)]

/-- C3 witness item: included under the default rule. -/
def c3wItem : Item := { defaultItem with item_id := "w3" }

/-- C3 witness scenario: markup enabled, every item included. -/
def c3wScen : Scenario :=
  { defaultScenario with aiu_enabled := true, items := [c3wItem] }

/-- C3 witness items_totals dict. -/
def c3wTotals : List (String × ItemTotals) := [("w3", ⟨100, 19, 119, 100, 19, 119⟩)]

/-- C4 witness item: tax-inclusive price of 119 at 19% VAT, quantity 2. -/
def c4Item : Item :=
  { defaultItem with item_id := "w4", unit_price := 119, qty := 2,
                     price_includes_vat := true, vat_rate := 19 }

/-- C5 witness item (tax-exclusive branch). -/
def c5Item : Item :=
  { defaultItem with item_id := "w5", unit_price := 100, qty := 10, vat_rate := 19 }

/-- C5 witness totals: the dict produced for c5Item. -/
def c5T : ItemTotals := ⟨100, 19, 119, 1000, 190, 1190⟩

end budget_model

namespace ai_analyst

open budget_model (Item defaultItem)

/-- C1 counterexample item: present in A with no item_code. -/
def c1Item : Item := { defaultItem with item_id := "a1", name := "panel solar" }

/-- C6 witness A-item. -/
def c6ItemA : Item :=
  { defaultItem with item_id := "a6", item_code := some "PAN-1", name := "foo" }

/-- C6 witness B-item: identical code, different name. -/
def c6ItemB : Item :=
  { defaultItem with item_id := "b6", item_code := some "PAN-1", name := "bar" }

/-- C1 witness A-items: one coded, one matched by name. -/
def c1wItemA1 : Item :=
  { defaultItem with item_id := "wa1", item_code := some "X1", name := "inversor" }

/-- C1 witness B-item matching by code. -/
def c1wItemB1 : Item :=
  { defaultItem with item_id := "wb1", item_code := some "X1", name := "otro" }

/-- C1 witness B-item with no counterpart in A. -/
def c1wItemB2 : Item :=
  { defaultItem with item_id := "wb2", item_code := none, name := "cable" }

end ai_analyst

namespace models

/-- ScenarioItem with the dataclass defaults of models.py. -/
def defaultScenarioItem : ScenarioItem :=
  { item_id := ""
    item_code := ""
    name := ""
    category_code := ""
    description := ""
    qty := 0
    unit := "UND"
    pricing_mode := "UNIT"
    price := 0
    vat_rate := 19
    price_includes_vat := false
    client_pays := false
    aiu_factors := ⟨100, 100, 100⟩
    incoterm := "NA"
    includes_installation := false
    includes_transport := false
    includes_commissioning := false
    delivery_point := "Puesto en obra"
    notes := ""
    order := 0 }

/-- Scenario with the dataclass defaults of models.py. -/
def defaultScenarioV2 : Scenario :=
  { scenario_id := ""
    project_id := ""
    name := ""
    created_at := ""
    updated_at := ""
    scenario_variables := ⟨0, 0, 0, 0, "COP", 1⟩
    aiu_config := ⟨false, 0, 0, 0⟩
    vat_config := ⟨true, false, 19⟩
    items := [] }

end models

/-
  Claim theorems, witnesses and counterexamples.
-/

namespace budget_model

lemma calculate_item_totals_isSome (item : Item) (scen : Scenario)
    (h : scen.default_vat_rate ≠ -100) :
    (calculate_item_totals item scen).isSome = true := by
  unfold calculate_item_totals
  by_cases hpct : item.is_percentage_item
  · simp [hpct]
  · simp only [hpct]
    by_cases hv : item.price_includes_vat
    · have hd : ¬(1 + (if item.vat_rate > 0 then item.vat_rate else scen.default_vat_rate) / 100 = 0) := by
        by_cases hr : item.vat_rate > 0
        · simp only [hr, if_pos]
          intro hc
          nlinarith
        · simp only [hr, if_neg, if_false]
          intro hc
          apply h
          linarith
      simp [hv, hd]
    · simp [hv]

lemma summarizeItems_isSome (scen : Scenario) (h : scen.default_vat_rate ≠ -100) :
    ∀ (items : List Item) (acc : SummaryAcc),
      (summarizeItems scen items acc).isSome = true := by
  intro items
  induction items with
  | nil => intro acc; simp [summarizeItems]
  | cons item rest ih =>
    intro acc
    unfold summarizeItems
    by_cases hpct : item.is_percentage_item
    · simp only [hpct, if_true]
      exact ih acc
    · simp only [hpct, if_false]
      have hs := calculate_item_totals_isSome item scen h
      obtain ⟨t, ht⟩ := Option.isSome_iff_exists.mp hs
      rw [ht]
      exact ih (stepAcc acc item t)

/-- Claim C2, counterexample: a scenario whose default VAT rate is -100 with
a tax-inclusive item whose own rate is not positive makes the per-item
calculator divide by zero (the Python code raises ZeroDivisionError), so the
summary faults as well; the claim that no division-by-zero fault is reachable
for arbitrary VAT rates is false. -/
theorem c2_counterexample :
    calculate_item_totals c2Item c2Scen = none ∧
      calculate_scenario_summary c2Scen = none := by
  have h1 : calculate_item_totals c2Item c2Scen = none := by
    norm_num [calculate_item_totals, c2Item, c2Scen, defaultItem, defaultScenario]
  have hitems : c2Scen.items = [c2Item] := rfl
  have hpct : c2Item.is_percentage_item = false := rfl
  refine ⟨h1, ?_⟩
  simp [calculate_scenario_summary, summarizeItems, hitems, hpct, h1]

/-- Claim C2, amended: for every scenario whose default VAT rate is not -100,
calculate_scenario_summary (and with it every per-item calculation it
performs) returns a result without faulting: the only unguarded denominator,
1 + rate/100 in the tax-inclusive division, is then never zero. -/
theorem c2_no_fault (scen : Scenario) (h : scen.default_vat_rate ≠ -100) :
    (calculate_scenario_summary scen).isSome = true := by
  unfold calculate_scenario_summary
  have hs := summarizeItems_isSome scen h scen.items ⟨[], 0, 0, 0, 0, 0, 0, 0, 0, 0⟩
  obtain ⟨acc, hacc⟩ := Option.isSome_iff_exists.mp hs
  rw [hacc]
  rfl

/-- Witness for c2_no_fault at a concrete scenario. -/
theorem c2_witness :
    c2wScen.default_vat_rate ≠ -100 ∧
      (calculate_scenario_summary c2wScen).isSome = true :=
  ⟨by norm_num [c2wScen, defaultScenario],
   c2_no_fault c2wScen (by norm_num [c2wScen, defaultScenario])⟩

lemma aiuSums_all_included (scen : Scenario) (tot : List (String × ItemTotals))
    (l : List Item)
    (h : ∀ i ∈ l, i.is_percentage_item = false → includeItem scen i = true) :
    (aiuSums scen tot l).1 = (aiuSums scen tot l).2 := by
  induction l with
  | nil => simp [aiuSums]
  | cons i rest ih =>
    have hrest : ∀ j ∈ rest, j.is_percentage_item = false → includeItem scen j = true :=
      fun j hj => h j (List.mem_cons_of_mem i hj)
    unfold aiuSums
    by_cases hpct : i.is_percentage_item
    · simp only [hpct, if_true]
      exact ih hrest
    · simp only [hpct, if_false]
      cases hl : lookupId i.item_id tot with
      | none => exact ih hrest
      | some t =>
        have hin : includeItem scen i = true :=
          h i (List.mem_cons_self i rest) (by simpa using hpct)
        simp [hin, ih hrest]

lemma aiuSums_none_included (scen : Scenario) (tot : List (String × ItemTotals))
    (l : List Item) (h : ∀ i ∈ l, includeItem scen i = false) :
    (aiuSums scen tot l).1 = 0 := by
  induction l with
  | nil => simp [aiuSums]
  | cons i rest ih =>
    have hrest : ∀ j ∈ rest, includeItem scen j = false :=
      fun j hj => h j (List.mem_cons_of_mem i hj)
    unfold aiuSums
    by_cases hpct : i.is_percentage_item
    · simp only [hpct, if_true]
      exact ih hrest
    · simp only [hpct, if_false]
      cases hl : lookupId i.item_id tot with
      | none => exact ih hrest
      | some t =>
        have hin : includeItem scen i = false := h i (List.mem_cons_self i rest)
        simp [hin, ih hrest]

/-- Claim C3, counterexample: with markup enabled and a single non-percentage
item that is not included (not markup-eligible) but carries a zero
tax-inclusive line total, the inclusion factor falls back to 1 and the
resolver returns the full total 10 instead of the 0 the claim demands. -/
theorem c3_counterexample :
    calculate_aiu_base_from_total_with_vat c3Scen 10 c3Totals = 10 ∧
      (∀ i ∈ c3Scen.items, includeItem c3Scen i = false) ∧ (10 : ℚ) ≠ 0 := by
  refine ⟨?_, by decide, by norm_num⟩
  norm_num [calculate_aiu_base_from_total_with_vat, aiuSums, lookupId, includeItem,
    c3Scen, c3Item, c3Totals, defaultItem, defaultScenario]

/-- Claim C3, amended: with markup enabled, the proportional resolver returns
the full combined tax-inclusive total when every non-percentage item is
included, and returns 0 when no item is included, provided the tax-inclusive
total of the non-percentage items is positive (when that total is 0 the
inclusion factor defaults to 1 and the full total is returned instead). -/
theorem c3_inclusion_base (scen : Scenario) (total_direct : ℚ)
    (items_totals : List (String × ItemTotals)) (hen : scen.aiu_enabled = true) :
    ((∀ i ∈ scen.items, i.is_percentage_item = false → includeItem scen i = true) →
      calculate_aiu_base_from_total_with_vat scen total_direct items_totals = total_direct) ∧
    ((∀ i ∈ scen.items, includeItem scen i = false) →
      0 < (aiuSums scen items_totals scen.items).2 →
      calculate_aiu_base_from_total_with_vat scen total_direct items_totals = 0) := by
  constructor
  · intro hall
    unfold calculate_aiu_base_from_total_with_vat
    by_cases htd : total_direct = 0
    · simp [hen, htd]
    · have heq := aiuSums_all_included scen items_totals scen.items hall
      by_cases hpos : 0 < (aiuSums scen items_totals scen.items).2
      · have hne : (aiuSums scen items_totals scen.items).2 ≠ 0 := ne_of_gt hpos
        simp [hen, htd, hpos, heq, div_self hne]
      · simp [hen, htd, hpos]
  · intro hnone hpos
    unfold calculate_aiu_base_from_total_with_vat
    have hz := aiuSums_none_included scen items_totals scen.items hnone
    by_cases htd : total_direct = 0
    · simp [hen, htd]
    · simp [hen, htd, hpos, hz]

/-- Witness for c3_inclusion_base: one fully included item, base equals the
full tax-inclusive total. -/
theorem c3_witness :
    calculate_aiu_base_from_total_with_vat c3wScen 119 c3wTotals = 119 :=
  (c3_inclusion_base c3wScen 119 c3wTotals (by decide)).1 (by decide)

/-- Claim C4: for a non-percentage item the effective VAT rate is
item.vat_rate when positive, else the scenario default; under tax-inclusive
pricing baseUnit = unitPrice/(1+rate/100), vatUnit = unitPrice - baseUnit,
totalUnit = unitPrice; otherwise baseUnit = unitPrice,
vatUnit = baseUnit*rate/100, totalUnit = baseUnit + vatUnit; line values are
the unit values times qty. -/
theorem c4_item_formulas (item : Item) (scen : Scenario) (r : ℚ)
    (hr : r = if item.vat_rate > 0 then item.vat_rate else scen.default_vat_rate)
    (hp : item.is_percentage_item = false) :
    (item.price_includes_vat = true → 1 + r / 100 ≠ 0 →
      calculate_item_totals item scen =
        some ⟨item.unit_price / (1 + r / 100),
              item.unit_price - item.unit_price / (1 + r / 100),
              item.unit_price,
              (item.unit_price / (1 + r / 100)) * item.qty,
              (item.unit_price - item.unit_price / (1 + r / 100)) * item.qty,
              item.unit_price * item.qty⟩) ∧
    (item.price_includes_vat = false →
      calculate_item_totals item scen =
        some ⟨item.unit_price,
              item.unit_price * (r / 100),
              item.unit_price + item.unit_price * (r / 100),
              item.unit_price * item.qty,
              (item.unit_price * (r / 100)) * item.qty,
              (item.unit_price + item.unit_price * (r / 100)) * item.qty⟩) := by
  subst hr
  constructor
  · intro hv hd
    simp [calculate_item_totals, hp, hv, hd]
  · intro hv
    simp [calculate_item_totals, hp, hv]

/-- Witness for c4_item_formulas on the tax-inclusive branch. -/
theorem c4_witness :
    calculate_item_totals c4Item defaultScenario =
      some ⟨(119 : ℚ) / (1 + 19 / 100), 119 - (119 : ℚ) / (1 + 19 / 100), 119,
            ((119 : ℚ) / (1 + 19 / 100)) * 2,
            (119 - (119 : ℚ) / (1 + 19 / 100)) * 2, (119 : ℚ) * 2⟩ :=
  (c4_item_formulas c4Item defaultScenario 19 (by norm_num [c4Item, defaultItem]) rfl).1
    rfl (by norm_num)

/-- Claim C5: for every item and both pricing conventions, base plus VAT
equals total within 1e-6, per unit and per line, in both calculation engines
(budget_model.calculate_item_totals and capex_engine.calculate_item_total);
over the rational model the identity is exact. -/
theorem c5_base_plus_vat :
    (∀ (item : Item) (scen : Scenario) (t : ItemTotals),
        calculate_item_totals item scen = some t →
        |t.base_unit + t.vat_unit - t.total_unit| ≤ 1 / 1000000 ∧
        |t.base_line + t.vat_line - t.total_line| ≤ 1 / 1000000) ∧
    (∀ (ci : models.ScenarioItem) (kwp : ℚ),
        |(capex_engine.calculate_item_total ci kwp).base +
          (capex_engine.calculate_item_total ci kwp).vat -
          (capex_engine.calculate_item_total ci kwp).total| ≤ 1 / 1000000) := by
  constructor
  · intro item scen t ht
    unfold calculate_item_totals at ht
    dsimp only at ht
    repeat' split at ht
    all_goals
      first
        | exact Option.noConfusion ht
        | (obtain rfl := Option.some.inj ht
           refine ⟨?_, ?_⟩ <;> (dsimp only; ring_nf; norm_num))
  · intro ci kwp
    unfold capex_engine.calculate_item_total
    dsimp only
    repeat' split
    all_goals (dsimp only; ring_nf; norm_num)

/-- Witness for c5_base_plus_vat at a concrete item of each engine. -/
theorem c5_witness :
    (|c5T.base_unit + c5T.vat_unit - c5T.total_unit| ≤ 1 / 1000000 ∧
      |c5T.base_line + c5T.vat_line - c5T.total_line| ≤ 1 / 1000000) ∧
    |(capex_engine.calculate_item_total models.defaultScenarioItem 0).base +
        (capex_engine.calculate_item_total models.defaultScenarioItem 0).vat -
        (capex_engine.calculate_item_total models.defaultScenarioItem 0).total| ≤
      1 / 1000000 :=
  ⟨c5_base_plus_vat.1 c5Item defaultScenario c5T
      (by norm_num [calculate_item_totals, c5Item, c5T, defaultItem, defaultScenario]),
   c5_base_plus_vat.2 models.defaultScenarioItem 0⟩

end budget_model

namespace ai_analyst

/-- Claim C7: delta_pct is 0 when both values are 0, 100 when only the first
is 0, (b-a)/a*100 otherwise, and in particular (a=100, b=0) yields -100. -/
theorem c7_delta_pct (a b : ℚ) :
    (a = 0 → b = 0 → calc_delta_pct a b = 0) ∧
    (a = 0 → b ≠ 0 → calc_delta_pct a b = 100) ∧
    (a ≠ 0 → calc_delta_pct a b = ((b - a) / a) * 100) ∧
    calc_delta_pct 100 0 = -100 := by
  refine ⟨?_, ?_, ?_, ?_⟩
  · intro ha hb; simp [calc_delta_pct, ha, hb]
  · intro ha hb; simp [calc_delta_pct, ha, hb]
  · intro ha; simp [calc_delta_pct, ha]
  · unfold calc_delta_pct; norm_num

/-- Witness for c7_delta_pct on each branch. -/
theorem c7_witness :
    calc_delta_pct 0 0 = 0 ∧ calc_delta_pct 0 100 = 100 ∧
      calc_delta_pct 100 120 = ((120 - 100) / 100) * 100 ∧
      calc_delta_pct 100 0 = -100 :=
  ⟨(c7_delta_pct 0 0).1 rfl rfl,
   (c7_delta_pct 0 100).2.1 rfl (by norm_num),
   (c7_delta_pct 100 120).2.2.1 (by norm_num),
   (c7_delta_pct 100 0).2.2.2⟩

/-- Claim C8: two category aggregates with identical labels but different
category ids merge into one row whose base, VAT and total are the sums of
the per-id aggregates. -/
theorem c8_merge_by_name (id1 id2 nm : String) (b1 v1 t1 b2 v2 t2 : ℚ)
    (_hne : id1 ≠ id2) :
    group_categories_by_name [(id1, ⟨nm, b1, v1, t1⟩), (id2, ⟨nm, b2, v2, t2⟩)] =
      [(nm, ⟨b1 + b2, v1 + v2, t1 + t2⟩)] := by
  simp [group_categories_by_name, addCat]

/-- Witness for c8_merge_by_name at concrete values. -/
theorem c8_witness :
    group_categories_by_name
        [("c1", ⟨"Equipos", 1, 2, 3⟩), ("c2", ⟨"Equipos", 10, 20, 30⟩)] =
      [("Equipos", ⟨1 + 10, 2 + 20, 3 + 30⟩)] :=
  c8_merge_by_name "c1" "c2" "Equipos" 1 2 3 10 20 30 (by decide)

end ai_analyst

namespace capex_engine

/-- Claim C10: the project totals of calculate_scenario_totals decompose into
the EPC-scope part plus the client-paid part: project_base = epc_base +
client_base, project_vat = epc_vat + client_vat, and project_total =
project_base + project_vat. -/
theorem c10_project_decomposition (s : models.Scenario) :
    (calculate_scenario_totals s).project_base =
        (calculate_scenario_totals s).epc_base + (calculate_scenario_totals s).client_base ∧
      (calculate_scenario_totals s).project_vat =
        (calculate_scenario_totals s).epc_vat + (calculate_scenario_totals s).client_vat ∧
      (calculate_scenario_totals s).project_total =
        (calculate_scenario_totals s).project_base + (calculate_scenario_totals s).project_vat :=
  ⟨rfl, rfl, rfl⟩

end capex_engine

namespace ai_analyst

open budget_model (Item)

/-- The B-items matched so far: second components of the match list. -/
def matchedB (ms : List (Item × Option Item)) : List Item :=
  ms.filterMap fun p => p.2

lemma matchedB_nil : matchedB [] = [] := rfl

lemma matchedB_cons_none (a : Item) (ms : List (Item × Option Item)) :
    matchedB ((a, none) :: ms) = matchedB ms := rfl

lemma matchedB_cons_some (a b : Item) (ms : List (Item × Option Item)) :
    matchedB ((a, some b) :: ms) = b :: matchedB ms := rfl

lemma findCodeMatch_eq_some {a b : Item} {used : List String} {bs : List Item}
    (h : findCodeMatch a used bs = some b) :
    b ∈ bs ∧ b.item_id ∉ used ∧ codeTruthy b.item_code = true ∧
      a.item_code = b.item_code := by
  induction bs with
  | nil => simp [findCodeMatch] at h
  | cons x xs ih =>
    unfold findCodeMatch at h
    split at h
    · obtain ⟨h1, h2, h3, h4⟩ := ih h
      exact ⟨List.mem_cons_of_mem x h1, h2, h3, h4⟩
    · split at h
      · rename_i hused hcond
        obtain rfl := Option.some.inj h
        exact ⟨List.mem_cons_self x xs, hused, hcond.1, hcond.2⟩
      · obtain ⟨h1, h2, h3, h4⟩ := ih h
        exact ⟨List.mem_cons_of_mem x h1, h2, h3, h4⟩

lemma findCodeMatch_isSome {a : Item} {used : List String} {bs : List Item}
    (h : ∃ b ∈ bs, b.item_id ∉ used ∧ codeTruthy b.item_code = true ∧
      a.item_code = b.item_code) :
    (findCodeMatch a used bs).isSome = true := by
  induction bs with
  | nil => obtain ⟨b, hb, _⟩ := h; simp at hb
  | cons x xs ih =>
    obtain ⟨b, hbmem, hbused, hbc, hbeq⟩ := h
    unfold findCodeMatch
    split
    · rename_i hxused
      rcases List.mem_cons.mp hbmem with rfl | hbmem2
      · exact absurd hxused hbused
      · exact ih ⟨b, hbmem2, hbused, hbc, hbeq⟩
    · split
      · rfl
      · rename_i hxused hxcond
        rcases List.mem_cons.mp hbmem with rfl | hbmem2
        · exact absurd ⟨hbc, hbeq⟩ hxcond
        · exact ih ⟨b, hbmem2, hbused, hbc, hbeq⟩

lemma pass1_fst (items_b : List Item) :
    ∀ (as : List Item) (used : List String),
      ((pass1 items_b as used).1).map Prod.fst =
        as.filter fun a => codeTruthy a.item_code := by
  intro as
  induction as with
  | nil => intro used; simp [pass1]
  | cons a rest ih =>
    intro used
    unfold pass1
    by_cases hc : codeTruthy a.item_code
    · cases hf : findCodeMatch a used items_b with
      | some b => simp [hc, hf, ih]
      | none => simp [hc, hf, ih]
    · simp [hc, ih]

lemma pass1_pair_spec (items_b : List Item) :
    ∀ (as : List Item) (used : List String) (a b : Item),
      (a, some b) ∈ (pass1 items_b as used).1 →
      codeTruthy a.item_code = true ∧ codeTruthy b.item_code = true ∧
        a.item_code = b.item_code ∧ b ∈ items_b ∧ b.item_id ∉ used := by
  intro as
  induction as with
  | nil => intro used a b h; simp [pass1] at h
  | cons x rest ih =>
    intro used a b h
    unfold pass1 at h
    by_cases hc : codeTruthy x.item_code
    · simp only [hc, if_true] at h
      cases hf : findCodeMatch x used items_b with
      | some b2 =>
        rw [hf] at h
        rcases List.mem_cons.mp h with heq | hmem
        · rw [Prod.mk.injEq] at heq
          obtain ⟨rfl, heq2⟩ := heq
          obtain rfl := Option.some.inj heq2
          obtain ⟨m1, m2, m3, m4⟩ := findCodeMatch_eq_some hf
          exact ⟨hc, m3, m4, m1, m2⟩
        · obtain ⟨m1, m2, m3, m4, m5⟩ := ih (b2.item_id :: used) a b hmem
          exact ⟨m1, m2, m3, m4, fun hu => m5 (List.mem_cons_of_mem _ hu)⟩
      | none =>
        rw [hf] at h
        rcases List.mem_cons.mp h with heq | hmem
        · exact absurd (congrArg Prod.snd heq) (by simp)
        · exact ih used a b hmem
    · simp only [hc, if_false] at h
      exact ih used a b h

lemma pass1_used_perm (items_b : List Item) :
    ∀ (as : List Item) (used : List String),
      (pass1 items_b as used).2.Perm
        ((matchedB (pass1 items_b as used).1).map Item.item_id ++ used) := by
  intro as
  induction as with
  | nil => intro used; simp [pass1, matchedB]
  | cons a rest ih =>
    intro used
    unfold pass1
    by_cases hc : codeTruthy a.item_code
    · cases hf : findCodeMatch a used items_b with
      | some b =>
        simp only [hc, if_true, hf]
        have h1 := ih (b.item_id :: used)
        refine h1.trans ?_
        rw [matchedB_cons_some, List.map_cons]
        exact List.perm_middle
      | none =>
        simp only [hc, if_true, hf]
        rw [matchedB_cons_none]
        exact ih used
    · simp only [hc, if_false]
      exact ih used

lemma pass1_used_nodup (items_b : List Item) :
    ∀ (as : List Item) (used : List String),
      used.Nodup → (pass1 items_b as used).2.Nodup := by
  intro as
  induction as with
  | nil => intro used h; simpa [pass1] using h
  | cons a rest ih =>
    intro used h
    unfold pass1
    by_cases hc : codeTruthy a.item_code
    · cases hf : findCodeMatch a used items_b with
      | some b =>
        simp only [hc, if_true, hf]
        have hb := (findCodeMatch_eq_some hf).2.1
        exact ih (b.item_id :: used) (List.nodup_cons.mpr ⟨hb, h⟩)
      | none => simp only [hc, if_true, hf]; exact ih used h
    · simp only [hc, if_false]; exact ih used h

lemma updateFirst_fst (a b : Item) :
    ∀ ms : List (Item × Option Item),
      ((updateFirst a b ms).1).map Prod.fst = ms.map Prod.fst := by
  intro ms
  induction ms with
  | nil => rfl
  | cons p rest ih =>
    obtain ⟨ia, ib⟩ := p
    unfold updateFirst
    split
    · rename_i hcond
      simp [hcond.1]
    · simp [ih]

lemma updateFirst_false (a b : Item) :
    ∀ ms : List (Item × Option Item),
      (updateFirst a b ms).2 = false → (updateFirst a b ms).1 = ms := by
  intro ms
  induction ms with
  | nil => intro _; rfl
  | cons p rest ih =>
    obtain ⟨ia, ib⟩ := p
    unfold updateFirst
    split
    · intro h; simp at h
    · intro h
      simp only at h ⊢
      rw [ih h]

lemma updateFirst_true_perm (a b : Item) :
    ∀ ms : List (Item × Option Item),
      (updateFirst a b ms).2 = true →
      (matchedB (updateFirst a b ms).1).Perm (b :: matchedB ms) := by
  intro ms
  induction ms with
  | nil => intro h; simp [updateFirst] at h
  | cons p rest ih =>
    obtain ⟨ia, ib⟩ := p
    unfold updateFirst
    split
    · rename_i hcond
      intro _
      rw [hcond.2, matchedB_cons_some, matchedB_cons_none]
    · intro h
      simp only at h ⊢
      cases ib with
      | none =>
        rw [matchedB_cons_none, matchedB_cons_none]
        exact ih h
      | some y =>
        rw [matchedB_cons_some, matchedB_cons_some]
        exact ((ih h).cons y).trans (List.Perm.swap b y _)

lemma updateFirst_mem_some (a b x y : Item) :
    ∀ ms : List (Item × Option Item),
      (x, some y) ∈ ms → (x, some y) ∈ (updateFirst a b ms).1 := by
  intro ms
  induction ms with
  | nil => intro h; simp at h
  | cons p rest ih =>
    obtain ⟨ia, ib⟩ := p
    intro h
    unfold updateFirst
    split
    · rename_i hcond
      rcases List.mem_cons.mp h with heq | hmem
      · rw [Prod.mk.injEq] at heq
        rw [hcond.2] at heq
        exact absurd heq.2 (by simp)
      · exact List.mem_cons_of_mem _ hmem
    · rcases List.mem_cons.mp h with heq | hmem
      · exact heq ▸ List.mem_cons_self _ _
      · exact List.mem_cons_of_mem _ (ih hmem)

lemma pass2Scan_spec (a : Item) :
    ∀ (bs : List Item) (ms : List (Item × Option Item)) (used : List String),
      pass2Scan a ms used bs = (ms, used) ∨
      ∃ b ∈ bs, b.item_id ∉ used ∧ (updateFirst a b ms).2 = true ∧
        pass2Scan a ms used bs = ((updateFirst a b ms).1, b.item_id :: used) := by
  intro bs
  induction bs with
  | nil => intro ms used; left; rfl
  | cons b rest ih =>
    intro ms used
    unfold pass2Scan
    split
    · rcases ih ms used with h | ⟨b2, hmem, hused, htrue, heq⟩
      · left; exact h
      · right; exact ⟨b2, List.mem_cons_of_mem _ hmem, hused, htrue, heq⟩
    · split
      · rename_i hused _
        cases htr : (updateFirst a b ms).2 with
        | true =>
          right
          exact ⟨b, List.mem_cons_self _ _, hused, htr, by simp [htr]⟩
        | false =>
          simp only [htr, if_false]
          rcases ih ms used with h | ⟨b2, hmem, hused2, htrue, heq⟩
          · left; exact h
          · right; exact ⟨b2, List.mem_cons_of_mem _ hmem, hused2, htrue, heq⟩
      · rcases ih ms used with h | ⟨b2, hmem, hused2, htrue, heq⟩
        · left; exact h
        · right; exact ⟨b2, List.mem_cons_of_mem _ hmem, hused2, htrue, heq⟩

/-- Invariant tying the used_b set to the matched B-items: used_b holds
exactly the ids of the matched items, without duplicates, and every matched
item comes from B. -/
def MatchInv (items_b : List Item) (ms : List (Item × Option Item))
    (used : List String) : Prop :=
  used.Perm ((matchedB ms).map Item.item_id) ∧ used.Nodup ∧
    ∀ x ∈ matchedB ms, x ∈ items_b

lemma pass2Scan_inv (a : Item) (items_b bs : List Item)
    (hbs : ∀ b ∈ bs, b ∈ items_b) (ms : List (Item × Option Item))
    (used : List String) (h : MatchInv items_b ms used) :
    MatchInv items_b (pass2Scan a ms used bs).1 (pass2Scan a ms used bs).2 := by
  rcases pass2Scan_spec a bs ms used with heq | ⟨b, hmem, hused, htrue, heq⟩
  · rw [heq]; exact h
  · rw [heq]
    obtain ⟨hperm, hnd, hmemB⟩ := h
    have hp := updateFirst_true_perm a b ms htrue
    refine ⟨?_, ?_, ?_⟩
    · refine ((hperm.cons b.item_id).trans ?_).trans ((hp.map Item.item_id).symm)
      rw [List.map_cons]
    · exact List.nodup_cons.mpr ⟨fun hc => hused (hperm.symm.subset (hperm.subset hc)), hnd⟩
    · intro x hx
      rcases List.mem_cons.mp (hp.subset hx) with rfl | hx2
      · exact hbs x hmem
      · exact hmemB x hx2

lemma pass2_fst (bs : List Item) :
    ∀ (as : List Item) (ms : List (Item × Option Item)) (used : List String),
      ((pass2 bs as ms used).1).map Prod.fst = ms.map Prod.fst := by
  intro as
  induction as with
  | nil => intro ms used; rfl
  | cons a rest ih =>
    intro ms used
    unfold pass2
    rcases pass2Scan_spec a bs ms used with heq | ⟨b, _, _, htrue, heq⟩
    · rw [heq, ih]
    · rw [heq, ih]
      exact updateFirst_fst a b ms

lemma pass2_inv (items_b bs : List Item) (hbs : ∀ b ∈ bs, b ∈ items_b) :
    ∀ (as : List Item) (ms : List (Item × Option Item)) (used : List String),
      MatchInv items_b ms used →
      MatchInv items_b (pass2 bs as ms used).1 (pass2 bs as ms used).2 := by
  intro as
  induction as with
  | nil => intro ms used h; exact h
  | cons a rest ih =>
    intro ms used h
    unfold pass2
    exact ih _ _ (pass2Scan_inv a items_b bs hbs ms used h)

lemma pass2_mem_some (bs : List Item) :
    ∀ (as : List Item) (ms : List (Item × Option Item)) (used : List String)
      (x y : Item), (x, some y) ∈ ms → (x, some y) ∈ (pass2 bs as ms used).1 := by
  intro as
  induction as with
  | nil => intro ms used x y h; exact h
  | cons a rest ih =>
    intro ms used x y h
    unfold pass2
    rcases pass2Scan_spec a bs ms used with heq | ⟨b, _, _, _, heq⟩
    · rw [heq]; exact ih _ _ _ _ h
    · rw [heq]; exact ih _ _ _ _ (updateFirst_mem_some a b x y ms h)

lemma countP_snd_eq_count (b : Item) :
    ∀ ms : List (Item × Option Item),
      (ms.countP fun p => decide (p.2 = some b)) = (matchedB ms).count b := by
  intro ms
  induction ms with
  | nil => rfl
  | cons p rest ih =>
    obtain ⟨x, ob⟩ := p
    cases ob with
    | none =>
      rw [matchedB_cons_none, List.countP_cons]
      simp [ih]
    | some y =>
      rw [matchedB_cons_some, List.countP_cons, List.count_cons]
      simp only [ih]
      by_cases hyb : y = b
      · simp [hyb]
      · simp [hyb, Ne.symm hyb]

/-- Claim C1, counterexample: an item of A with no item_code is dropped from
the output entirely — pass 2 only revisits entries created by pass 1, and
pass 1 only creates entries for coded A-items — so it appears in zero output
pairs instead of the single (a, null) pair the claim demands. -/
theorem c1_counterexample :
    ((match_items_by_code_and_name [c1Item] []).countP
        fun p => decide (p.1 = some c1Item)) = 0 ∧
      c1Item ∈ [c1Item] :=
  ⟨rfl, List.mem_singleton.mpr rfl⟩

/-- Claim C1, amended: every item of A that has a non-empty code appears
exactly once as a left component (in A-order, and items of A without a code
never appear), and, when the B item ids are distinct, every item of B appears
in exactly one output pair. -/
theorem c1_coverage (items_a items_b : List Item)
    (hB : (items_b.map Item.item_id).Nodup) :
    ((match_items_by_code_and_name items_a items_b).filterMap Prod.fst =
      items_a.filter fun a => codeTruthy a.item_code) ∧
    ∀ b ∈ items_b,
      ((match_items_by_code_and_name items_a items_b).countP
        fun p => decide (p.2 = some b)) = 1 := by
  have hout : match_items_by_code_and_name items_a items_b =
      ((pass2 (items_b.filter fun b => b.item_id ∉ (pass1 items_b items_a []).2)
          (((pass1 items_b items_a []).1.filter fun p => p.2 = none).map fun p => p.1)
          (pass1 items_b items_a []).1 (pass1 items_b items_a []).2).1.map
        fun p => ((some p.1 : Option Item), p.2)) ++
      ((items_b.filter fun b => b.item_id ∉
          (pass2 (items_b.filter fun b => b.item_id ∉ (pass1 items_b items_a []).2)
            (((pass1 items_b items_a []).1.filter fun p => p.2 = none).map fun p => p.1)
            (pass1 items_b items_a []).1 (pass1 items_b items_a []).2).2).map
        fun b => ((none : Option Item), some b)) := rfl
  have hmemB1 : ∀ x ∈ matchedB (pass1 items_b items_a []).1, x ∈ items_b := by
    intro x hx
    obtain ⟨p, hpmem, hps⟩ := List.mem_filterMap.mp hx
    obtain ⟨pa, pb⟩ := p
    simp only at hps
    subst hps
    exact (pass1_pair_spec items_b items_a [] pa x hpmem).2.2.2.1
  have hinv1 : MatchInv items_b (pass1 items_b items_a []).1 (pass1 items_b items_a []).2 :=
    ⟨by simpa using pass1_used_perm items_b items_a [],
     pass1_used_nodup items_b items_a [] List.nodup_nil, hmemB1⟩
  have hinv2 := pass2_inv items_b
    (items_b.filter fun b => b.item_id ∉ (pass1 items_b items_a []).2)
    (fun b hb => List.mem_of_mem_filter hb)
    (((pass1 items_b items_a []).1.filter fun p => p.2 = none).map fun p => p.1)
    (pass1 items_b items_a []).1 (pass1 items_b items_a []).2 hinv1
  obtain ⟨hperm, hnd, hmemB⟩ := hinv2
  have hfst := pass2_fst
    (items_b.filter fun b => b.item_id ∉ (pass1 items_b items_a []).2)
    (((pass1 items_b items_a []).1.filter fun p => p.2 = none).map fun p => p.1)
    (pass1 items_b items_a []).1 (pass1 items_b items_a []).2
  constructor
  · rw [hout, List.filterMap_append]
    have hA1 : ∀ ms : List (Item × Option Item),
        ((ms.map fun p => ((some p.1 : Option Item), p.2)).filterMap Prod.fst) =
          ms.map Prod.fst := by
      intro ms
      induction ms with
      | nil => rfl
      | cons p rest ih => simp [ih]
    have hA2 : ∀ l : List Item,
        ((l.map fun b => ((none : Option Item), some b)).filterMap Prod.fst) = [] := by
      intro l
      induction l with
      | nil => rfl
      | cons x rest ih => simp [ih]
    rw [hA1, hA2, List.append_nil, hfst, pass1_fst]
  · intro b hb
    rw [hout, List.countP_append]
    have hL : ((pass2 (items_b.filter fun b => b.item_id ∉ (pass1 items_b items_a []).2)
          (((pass1 items_b items_a []).1.filter fun p => p.2 = none).map fun p => p.1)
          (pass1 items_b items_a []).1 (pass1 items_b items_a []).2).1.map
            fun p => ((some p.1 : Option Item), p.2)).countP
          (fun p => decide (p.2 = some b)) =
        (matchedB (pass2 (items_b.filter fun b => b.item_id ∉ (pass1 items_b items_a []).2)
          (((pass1 items_b items_a []).1.filter fun p => p.2 = none).map fun p => p.1)
          (pass1 items_b items_a []).1 (pass1 items_b items_a []).2).1).count b := by
      rw [List.countP_map]
      exact countP_snd_eq_count b _
    have hR : ∀ l : List Item,
        ((l.map fun b2 => ((none : Option Item), some b2)).countP
          fun p => decide (p.2 = some b)) = l.count b := by
      intro l
      induction l with
      | nil => rfl
      | cons x rest ih =>
        rw [List.map_cons, List.countP_cons, List.count_cons]
        simp only [ih]
        by_cases hxb : x = b
        · simp [hxb]
        · simp [hxb, Ne.symm hxb]
    rw [hL, hR]
    have hndmap := (hperm.nodup_iff).mp hnd
    have hndmatched := List.Nodup.of_map _ hndmap
    by_cases hbu : b.item_id ∈ (pass2
        (items_b.filter fun b => b.item_id ∉ (pass1 items_b items_a []).2)
        (((pass1 items_b items_a []).1.filter fun p => p.2 = none).map fun p => p.1)
        (pass1 items_b items_a []).1 (pass1 items_b items_a []).2).2
    · obtain ⟨x, hxmem, hxid⟩ := List.mem_map.mp (hperm.subset hbu)
      have hxb : x = b := List.inj_on_of_nodup_map hB (hmemB x hxmem) hb hxid
      subst hxb
      have h1 : (matchedB _).count x = 1 := List.count_eq_one_of_mem hndmatched hxmem
      have h2 : (items_b.filter fun b2 => b2.item_id ∉ (pass2
          (items_b.filter fun b => b.item_id ∉ (pass1 items_b items_a []).2)
          (((pass1 items_b items_a []).1.filter fun p => p.2 = none).map fun p => p.1)
          (pass1 items_b items_a []).1 (pass1 items_b items_a []).2).2).count x = 0 := by
        rw [List.count_eq_zero]
        intro hcmem
        exact absurd hbu (by simpa using (List.mem_filter.mp hcmem).2)
      rw [h1, h2]
    · have h1 : (matchedB (pass2
          (items_b.filter fun b => b.item_id ∉ (pass1 items_b items_a []).2)
          (((pass1 items_b items_a []).1.filter fun p => p.2 = none).map fun p => p.1)
          (pass1 items_b items_a []).1 (pass1 items_b items_a []).2).1).count b = 0 := by
        rw [List.count_eq_zero]
        intro hcmem
        exact hbu (hperm.symm.subset (List.mem_map_of_mem Item.item_id hcmem))
      have hbmem2 : b ∈ items_b.filter fun b2 => b2.item_id ∉ (pass2
          (items_b.filter fun b => b.item_id ∉ (pass1 items_b items_a []).2)
          (((pass1 items_b items_a []).1.filter fun p => p.2 = none).map fun p => p.1)
          (pass1 items_b items_a []).1 (pass1 items_b items_a []).2).2 :=
        List.mem_filter.mpr ⟨hb, by simpa using hbu⟩
      have h2 := List.count_eq_one_of_mem ((List.Nodup.of_map _ hB).filter _) hbmem2
      rw [h1, h2]

/-- Witness for c1_coverage at a concrete pair of scenarios: one coded A item,
one code-matching B item and one B item only in B. -/
theorem c1_coverage_witness :
    ((match_items_by_code_and_name [c1wItemA1] [c1wItemB1, c1wItemB2]).filterMap
        Prod.fst = [c1wItemA1].filter fun a => codeTruthy a.item_code) ∧
    ∀ b ∈ [c1wItemB1, c1wItemB2],
      ((match_items_by_code_and_name [c1wItemA1] [c1wItemB1, c1wItemB2]).countP
        fun p => decide (p.2 = some b)) = 1 :=
  c1_coverage [c1wItemA1] [c1wItemB1, c1wItemB2] (by decide)

lemma pass1_finds (items_b : List Item)
    (hB : (items_b.map Item.item_id).Nodup) :
    ∀ (as : List Item) (used : List String) (a : Item),
      ((as.filter fun x => codeTruthy x.item_code).map Item.item_code).Nodup →
      a ∈ as → codeTruthy a.item_code = true →
      (∀ u ∈ used, ∀ b ∈ items_b, b.item_code = a.item_code → b.item_id ≠ u) →
      (∃ b ∈ items_b, codeTruthy b.item_code = true ∧ b.item_code = a.item_code) →
      ∃ b, (a, some b) ∈ (pass1 items_b as used).1 ∧ b.item_code = a.item_code := by
  intro as
  induction as with
  | nil => intro used a _ ha; exact absurd ha (by simp)
  | cons x rest ih =>
    intro used a hnd ha hcode hinv hex
    unfold pass1
    rcases List.mem_cons.mp ha with rfl | hmem
    · simp only [hcode, if_true]
      have hsome : (findCodeMatch a used items_b).isSome = true := by
        apply findCodeMatch_isSome
        obtain ⟨b0, hb0mem, hb0c, hb0eq⟩ := hex
        refine ⟨b0, hb0mem, ?_, hb0c, hb0eq.symm⟩
        intro hu
        exact hinv _ hu b0 hb0mem hb0eq rfl
      obtain ⟨b, hb⟩ := Option.isSome_iff_exists.mp hsome
      rw [hb]
      exact ⟨b, List.mem_cons_self _ _, (findCodeMatch_eq_some hb).2.2.2.symm⟩
    · by_cases hcx : codeTruthy x.item_code
      · have hfilter : (x :: rest).filter (fun y => codeTruthy y.item_code) =
            x :: rest.filter fun y => codeTruthy y.item_code := by
          simp [hcx]
        rw [hfilter, List.map_cons] at hnd
        have hndtail := (List.nodup_cons.mp hnd).2
        have hhead := (List.nodup_cons.mp hnd).1
        have hxa : x.item_code ≠ a.item_code := by
          intro hceq
          exact hhead (hceq ▸ List.mem_map_of_mem Item.item_code
            (List.mem_filter.mpr ⟨hmem, hcode⟩))
        simp only [hcx, if_true]
        cases hf : findCodeMatch x used items_b with
        | some b2 =>
          obtain ⟨hb2mem, hb2used, hb2c, hb2eq⟩ := findCodeMatch_eq_some hf
          have hinv2 : ∀ u ∈ b2.item_id :: used, ∀ b ∈ items_b,
              b.item_code = a.item_code → b.item_id ≠ u := by
            intro u hu b hbmem hbeq
            rcases List.mem_cons.mp hu with rfl | hu2
            · intro hid
              have hbb2 : b = b2 := List.inj_on_of_nodup_map hB hbmem hb2mem hid
              apply hxa
              rw [hb2eq, ← hbb2, hbeq]
            · exact hinv u hu2 b hbmem hbeq
          obtain ⟨b, hbmem3, hbeq3⟩ := ih (b2.item_id :: used) a hndtail hmem hcode hinv2 hex
          exact ⟨b, List.mem_cons_of_mem _ hbmem3, hbeq3⟩
        | none =>
          obtain ⟨b, hbmem3, hbeq3⟩ := ih used a hndtail hmem hcode hinv hex
          exact ⟨b, List.mem_cons_of_mem _ hbmem3, hbeq3⟩
      · have hfilter : (x :: rest).filter (fun y => codeTruthy y.item_code) =
            rest.filter fun y => codeTruthy y.item_code := by
          simp [hcx]
        rw [hfilter] at hnd
        simp only [hcx, if_false]
        exact ih used a hnd hmem hcode hinv hex

/-- Claim C6: pass 1 pairs only items with identical non-empty codes (exact,
case-sensitive string equality), and code matching has priority over name
matching: whenever the coded items of A carry distinct codes and the item ids
of B are distinct, a coded A item with a code-equal partner in B is paired in
the final output with an item of identical code — never through the
name-matching pass, whatever the names are. -/
theorem c6_code_priority :
    (∀ (items_a items_b : List Item) (a b : Item),
        (a, some b) ∈ (pass1 items_b items_a []).1 →
        codeTruthy a.item_code = true ∧ codeTruthy b.item_code = true ∧
          a.item_code = b.item_code ∧ b ∈ items_b) ∧
    (∀ (items_a items_b : List Item) (a : Item),
        ((items_a.filter fun x => codeTruthy x.item_code).map Item.item_code).Nodup →
        (items_b.map Item.item_id).Nodup →
        a ∈ items_a → codeTruthy a.item_code = true →
        (∃ b ∈ items_b, codeTruthy b.item_code = true ∧
          b.item_code = a.item_code) →
        ∃ b, (some a, some b) ∈ match_items_by_code_and_name items_a items_b ∧
          b.item_code = a.item_code) := by
  constructor
  · intro items_a items_b a b h
    obtain ⟨h1, h2, h3, h4, _⟩ := pass1_pair_spec items_b items_a [] a b h
    exact ⟨h1, h2, h3, h4⟩
  · intro items_a items_b a hA hB hmem hcode hex
    obtain ⟨b, hbmem, hbeq⟩ :=
      pass1_finds items_b hB items_a [] a hA hmem hcode (by simp) hex
    have hpres := pass2_mem_some
      (items_b.filter fun b => b.item_id ∉ (pass1 items_b items_a []).2)
      (((pass1 items_b items_a []).1.filter fun p => p.2 = none).map fun p => p.1)
      (pass1 items_b items_a []).1 (pass1 items_b items_a []).2 a b hbmem
    refine ⟨b, ?_, hbeq⟩
    unfold match_items_by_code_and_name
    exact List.mem_append_left _ (List.mem_map_of_mem _ hpres)

/-- Witness for the priority part of c6_code_priority: identical codes,
different names, paired by code. -/
theorem c6_witness :
    ∃ b, (some c6ItemA, some b) ∈
        match_items_by_code_and_name [c6ItemA] [c6ItemB] ∧
      b.item_code = c6ItemA.item_code :=
  c6_code_priority.2 [c6ItemA] [c6ItemB] c6ItemA (by decide) (by decide)
    (List.mem_singleton.mpr rfl) (by decide)
    ⟨c6ItemB, List.mem_cons_self _ _, by decide, rfl⟩

end ai_analyst

namespace formatting

lemma pyRindex_error_eq (c : Char) (cs : List Char) (e : PyErr)
    (h : pyRindex c cs = .error e) : e = .valueError := by
  unfold pyRindex at h
  split at h
  · exact absurd h (by simp)
  · exact (Except.error.inj h).symm

lemma floatOfChars_error_eq (cs : List Char) (e : PyErr)
    (h : floatOfChars cs = .error e) : e = .valueError := by
  unfold floatOfChars at h
  dsimp only at h
  repeat' split at h
  all_goals
    first
      | exact Except.noConfusion h
      | exact (Except.error.inj h).symm

lemma transformSeparators_error_eq (text : List Char) (e : PyErr)
    (h : transformSeparators text = .error e) : e = .valueError := by
  unfold transformSeparators at h
  repeat' split at h
  all_goals
    first
      | exact Except.noConfusion h
      | (rename_i e2 heq
         exact (Except.error.inj h) ▸ pyRindex_error_eq _ _ _ heq)

lemma parseBody_error_eq (s : String) (e : PyErr)
    (h : parseBody s = .error e) : e = .valueError := by
  unfold parseBody at h
  dsimp only at h
  repeat' split at h
  all_goals
    first
      | exact Except.noConfusion h
      | (rename_i e2 heq
         exact (Except.error.inj h) ▸ transformSeparators_error_eq _ _ heq)
      | exact floatOfChars_error_eq _ _ h

/-- Claim C9: parse_number returns a number for every input — None, the empty
string, or any string — and never lets an exception escape: the only failing
operations inside the body raise ValueError, which the except clause turns
into 0.0; malformed locale-formatted input (here "3.800.000,ab") yields 0.0,
as does None. -/
theorem c9_parse_number_total :
    (∀ t : Option String, ∃ q : ℚ, parse_number t = .ok q) ∧
      parse_number (some "3.800.000,ab") = .ok 0 ∧
      parse_number none = .ok 0 := by
  refine ⟨?_, by rfl, rfl⟩
  intro t
  match t with
  | none => exact ⟨0, rfl⟩
  | some s =>
    unfold parse_number
    by_cases hs : s = ""
    · exact ⟨0, by simp [hs]⟩
    · cases hb : parseBody s with
      | ok q => exact ⟨q, by simp [hs, hb]⟩
      | error e =>
        have he := parseBody_error_eq s e hb
        subst he
        exact ⟨0, by simp [hs, hb]⟩

end formatting
